import Mathlib

/-!
Verification of `scripts/lidar/process_lidar.py` (LiDAR raster pipeline).

Shallow embedding conventions:
* Python `int(x)` truncation toward zero on a rational is `pyInt`.
* rasterio's `Affine` transform is the structure `Aff` (row-major
  coefficients `a b c d e f`, mapping `(col, row)` to world coordinates);
  `affMul` is affine composition as used by `src.transform * Affine.scale(s, s)`.
* A raster's spatial extent and the AOI geometries handed to
  `rasterio.mask.mask` are modelled at bounding-box level by `Rect`;
  `mask(src, geoms, crop=True)` raises when the shapes do not overlap the
  raster, which the model renders as `Except.error ClipErr.noOverlap`.
* The orchestrator `process_site` / the `__main__` loop are modelled as
  state-passing functions returning the list of output files created so far
  together with the first uncaught exception (the Python code has no
  try/except, so the first exception ends the whole run).
* Elevation arithmetic with NaN propagation is modelled over `Option ℝ`
  (`none` = NaN) in the later, noncomputable section.
-/

namespace EGM704

/-- Python `int(q)` for a rational: truncation toward zero. -/
def pyInt (q : ℚ) : ℤ := if 0 ≤ q then ⌊q⌋ else -⌊-q⌋

/-- rasterio / affine `Affine(a, b, c, d, e, f)`:
`x = a*col + b*row + c`, `y = d*col + e*row + f`. -/
structure Aff where
  a : ℚ
  b : ℚ
  c : ℚ
  d : ℚ
  e : ℚ
  f : ℚ
deriving DecidableEq

/-- Affine composition `T * S` (matrix product of the 3×3 homogeneous forms),
as the `*` of the `affine` library used on line 142 of the source. -/
def affMul (T S : Aff) : Aff :=
  ⟨T.a * S.a + T.b * S.d, T.a * S.b + T.b * S.e, T.a * S.c + T.b * S.f + T.c,
   T.d * S.a + T.e * S.d, T.d * S.b + T.e * S.e, T.d * S.c + T.e * S.f + T.f⟩

/-- `Affine.scale(sx, sy)`. -/
def affScale (sx sy : ℚ) : Aff := ⟨sx, 0, 0, 0, sy, 0⟩

/-- `src.res[0]`: the horizontal pixel size, which for the north-up transforms
this script handles is the transform's `a` coefficient. -/
def srcRes0 (T : Aff) : ℚ := T.a

/-- The only failure the arithmetic of `resample_to_10m` (lines 136-151) can
produce: Python raises `ZeroDivisionError` on `src.height / scale` when
`scale == 0`.  There is no invalid-resolution check in the code. -/
inductive RErr
  | zeroDivision
deriving DecidableEq

/-- `resample_to_10m`, lines 136-151: the computation of the new dimensions
and transform.  `scale = target_res / src.res[0]`,
`new_height = int(src.height / scale)`, `new_width = int(src.width / scale)`,
`transform = src.transform * Affine.scale(scale, scale)`.
No validation of `scale` or of the resulting dimensions is performed. -/
def resample_to_10m (hgt wid : ℕ) (T : Aff) (target : ℚ) :
    Except RErr (ℤ × ℤ × Aff) :=
  let scale := target / srcRes0 T
  if scale = 0 then .error .zeroDivision
  else
    .ok (pyInt ((hgt : ℚ) / scale), pyInt ((wid : ℚ) / scale),
      affMul T (affScale scale scale))

/-- Error named by the spec for degenerate resampling parameters. -/
inductive SErr
  | invalidResolution
deriving DecidableEq

/-- Follows the spec's words (§4.4), for comparison with `resample_to_10m`:
"Fails with `InvalidResolutionError` if the computed scale is ≤ 0 or the
resulting dimensions are < 1 pixel." -/
def resample_spec_model (hgt wid : ℕ) (T : Aff) (target : ℚ) :
    Except SErr (ℤ × ℤ × Aff) :=
  let scale := target / srcRes0 T
  let nh := pyInt ((hgt : ℚ) / scale)
  let nw := pyInt ((wid : ℚ) / scale)
  if scale ≤ 0 ∨ nh < 1 ∨ nw < 1 then .error .invalidResolution
  else .ok (nh, nw, affMul T (affScale scale scale))

/-- Axis-aligned bounding box with rational corners; stands for a raster's
spatial extent or an AOI geometry's extent. -/
structure Rect where
  xmin : ℚ
  xmax : ℚ
  ymin : ℚ
  ymax : ℚ
deriving DecidableEq

instance : Inhabited Rect := ⟨⟨0, 0, 0, 0⟩⟩

/-- Extent intersection test used to decide whether `rasterio.mask.mask`
succeeds or raises its no-overlap error. -/
def rectsIntersect (r s : Rect) : Bool :=
  decide (max r.xmin s.xmin ≤ min r.xmax s.xmax ∧
    max r.ymin s.ymin ≤ min r.ymax s.ymax)

/-- Intersection of two overlapping extents: the cropped output window. -/
def rectInter (r s : Rect) : Rect :=
  ⟨max r.xmin s.xmin, min r.xmax s.xmax, max r.ymin s.ymin, min r.ymax s.ymax⟩

/-- Point membership in an extent (pixel retained by the mask). -/
def inRectB (r : Rect) (p : ℚ × ℚ) : Bool :=
  decide (r.xmin ≤ p.1 ∧ p.1 ≤ r.xmax ∧ r.ymin ≤ p.2 ∧ p.2 ≤ r.ymax)

/-- `rasterio.mask.mask` raises `ValueError("Input shapes do not overlap
raster.")` when the geometry misses the raster. -/
inductive ClipErr
  | noOverlap
deriving DecidableEq

/-- `clip_raster_to_aoi`, lines 56-79.  The AOI GeoDataFrame is its CRS id
plus its list of geometry rows; if the CRS differs from the raster's the
geometries are reprojected (`to_crs`, modelled by the supplied `reproj`),
then ONLY the first geometry row is passed to `mask` (line 65:
`geoms = [aoi_gdf.geometry.values[0]]`).  On success the output is the
cropped window plus the masked band (pixels outside the geometry become the
nodata value); on no overlap the library error propagates. -/
def clip_raster_to_aoi (srcCrs : ℕ) (srcExt : Rect) (band : ℚ × ℚ → ℚ)
    (nodataV : ℚ) (aoiCrs : ℕ) (geoms : List Rect)
    (reproj : ℕ → ℕ → Rect → Rect) :
    Except ClipErr (Rect × ((ℚ × ℚ) → ℚ)) :=
  let gs := if aoiCrs ≠ srcCrs then geoms.map (reproj aoiCrs srcCrs) else geoms
  let g := gs.headI
  if rectsIntersect srcExt g then
    .ok (rectInter srcExt g, fun p => if inRectB g p then band p else nodataV)
  else .error .noOverlap

/-- AOI geometries as point sets (stand-in for shapely polygons). -/
abbrev GeomS := Set (ℚ × ℚ)

/-- `load_aoi_for_site` raises `ValueError` on a feature-less layer
(line 46). -/
inductive LoadErr
  | emptyLayer
deriving DecidableEq

/-- Geometric union of a list of geometries (shapely `unary_union`, which is
what `GeoDataFrame.dissolve` computes for the geometry column). -/
def listUnion (l : List GeomS) : GeomS := l.foldr (· ∪ ·) ∅

/-- `load_aoi_for_site`, lines 43-53, applied to the features of the matched
layer (each feature = geometry plus its attribute record, the latter modelled
as a `ℕ`).  Zero features: error.  One feature: returned as-is
(`gdf.iloc[[0]]`).  More: `gdf.dissolve()` unions the geometries and
aggregates the attribute columns with the geopandas default
`aggfunc="first"`, i.e. the first feature's attributes are retained. -/
def load_aoi_for_site : List (GeomS × ℕ) → Except LoadErr (GeomS × ℕ)
  | [] => .error .emptyLayer
  | [f] => .ok f
  | f :: g :: rest => .ok (listUnion ((f :: g :: rest).map Prod.fst), f.2)

/-- Per-tile inputs visible to `process_site`: whether
`RAW_LIDAR_DIR / f"{tile_code}.tif"` exists, and the raster's CRS, extent,
band and nodata. -/
structure TileData where
  present : Bool
  crs : ℕ
  ext : Rect
  band : ℚ × ℚ → ℚ
  nodataV : ℚ

/-- Uncaught exceptions of the orchestrator: the `FileNotFoundError` of
line 190 (the spec's `MissingTileError`) and the mask library's no-overlap
error (the spec's `NoOverlapError`). -/
inductive PErr
  | missingTile (t : String)
  | noOverlapAt (t : String)
deriving DecidableEq

/-- Output filenames for one tile (lines 195, 199, 203). -/
def outFiles (site t : String) : List String :=
  [site ++ "_" ++ t ++ "_DTM_1m_clipped.tif",
   site ++ "_" ++ t ++ "_hillshade_1m.tif",
   site ++ "_" ++ t ++ "_DTM_10m.tif"]

/-- The tile loop of `process_site` (lines 187-204), abstracted over the
per-tile facts it consults: whether the tile's raw file exists and what the
clip stage returns for it.  Result: the output files created before the
first uncaught exception, and that exception if any.  A missing tile file
raises before any work on that tile; a clip no-overlap raises before the
clipped file is written; on success all three outputs of the tile are
written and the loop continues.  There is no try/except in the source. -/
def process_tiles (present : String → Bool)
    (clipRes : String → Except ClipErr (Rect × ((ℚ × ℚ) → ℚ)))
    (site : String) : List String → List String × Option PErr
  | [] => ([], none)
  | t :: ts =>
    match present t, clipRes t with
    | false, _ => ([], some (.missingTile t))
    | true, .error _ => ([], some (.noOverlapAt t))
    | true, .ok _ =>
      let r := process_tiles present clipRes site ts
      (outFiles site t ++ r.1, r.2)

/-- `process_site` (lines 170-204) after its AOI load: the tile loop run
with the real existence check and the real clip stage. -/
def process_site (td : String → TileData) (aoiCrs : ℕ) (geoms : List Rect)
    (reproj : ℕ → ℕ → Rect → Rect) (site : String)
    (ts : List String) : List String × Option PErr :=
  process_tiles (fun t => (td t).present)
    (fun t => clip_raster_to_aoi (td t).crs (td t).ext (td t).band
      (td t).nodataV aoiCrs geoms reproj) site ts

/-- The `__main__` loop (lines 207-209) over the site→tiles mapping; `aoi`
gives each site's loaded AOI (CRS and geometry rows).  No try/except: the
first exception from any site ends the run. -/
def run_all (td : String → TileData) (aoi : String → ℕ × List Rect)
    (reproj : ℕ → ℕ → Rect → Rect) :
    List (String × List String) → List String × Option PErr
  | [] => ([], none)
  | (s, ts) :: rest =>
    let r := process_site td (aoi s).1 (aoi s).2 reproj s ts
    match r.2 with
    | some e => (r.1, some e)
    | none =>
      let r2 := run_all td aoi reproj rest
      (r.1 ++ r2.1, r2.2)

/-- Outputs of a list of fully processed tiles, in loop order. -/
def outputsFor (site : String) (ts : List String) : List String :=
  ts.foldr (fun u acc => outFiles site u ++ acc) []

/-- Whether an `Except` computation succeeded. -/
def exceptOk {ε α : Type _} : Except ε α → Bool
  | .ok _ => true
  | .error _ => false

/-! Concrete fixtures for counterexamples and witnesses. -/

def uRect : Rect := ⟨0, 1, 0, 1⟩

def farRect : Rect := ⟨10, 11, 10, 11⟩

def idReproj : ℕ → ℕ → Rect → Rect := fun _ _ r => r

def cBand : ℚ × ℚ → ℚ := fun _ => 0

def tdC2 : String → TileData := fun t =>
  { present := t != "B", crs := 0, ext := uRect, band := cBand, nodataV := 0 }

def tdC3 : String → TileData := fun t =>
  { present := true, crs := 0, ext := if t = "A" then farRect else uRect,
    band := cBand, nodataV := 0 }

def aoiC3 : String → ℕ × List Rect := fun _ => (0, [uRect])

def unitAff : Aff := ⟨1, 0, 0, 0, -1, 0⟩

def gA : GeomS := {p : ℚ × ℚ | p.1 ≤ 1}

def gB : GeomS := {p : ℚ × ℚ | 2 ≤ p.1}

/-! Helper lemmas on the orchestrator. -/

/-- One step of the tile loop on a present tile whose clip succeeded. -/
theorem process_tiles_cons_ok (present : String → Bool)
    (clipRes : String → Except ClipErr (Rect × ((ℚ × ℚ) → ℚ)))
    (site t : String) (ts : List String) (o : Rect × ((ℚ × ℚ) → ℚ))
    (hp : present t = true) (hclip : clipRes t = .ok o) :
    process_tiles present clipRes site (t :: ts) =
      (outFiles site t ++ (process_tiles present clipRes site ts).1,
       (process_tiles present clipRes site ts).2) := by
  rw [process_tiles, hp, hclip]

/-- One step of the tile loop on a missing tile. -/
theorem process_tiles_cons_missing (present : String → Bool)
    (clipRes : String → Except ClipErr (Rect × ((ℚ × ℚ) → ℚ)))
    (site t : String) (ts : List String) (hp : present t = false) :
    process_tiles present clipRes site (t :: ts) =
      ([], some (.missingTile t)) := by
  rw [process_tiles, hp]

/-- One step of the tile loop on a present tile whose clip raised. -/
theorem process_tiles_cons_noOverlap (present : String → Bool)
    (clipRes : String → Except ClipErr (Rect × ((ℚ × ℚ) → ℚ)))
    (site t : String) (ts : List String) (e : ClipErr)
    (hp : present t = true) (hclip : clipRes t = .error e) :
    process_tiles present clipRes site (t :: ts) =
      ([], some (.noOverlapAt t)) := by
  rw [process_tiles, hp, hclip]

/-- Fully processed prefix: tiles that are present and clip successfully
contribute their outputs and pass control to the rest of the list. -/
theorem process_tiles_prefix (present : String → Bool)
    (clipRes : String → Except ClipErr (Rect × ((ℚ × ℚ) → ℚ)))
    (site : String) (pre rest : List String)
    (hpre : ∀ u ∈ pre, present u = true ∧ exceptOk (clipRes u) = true) :
    process_tiles present clipRes site (pre ++ rest) =
      (outputsFor site pre ++ (process_tiles present clipRes site rest).1,
       (process_tiles present clipRes site rest).2) := by
  induction pre with
  | nil => simp [outputsFor]
  | cons u pre ih =>
    obtain ⟨hp, hok⟩ := hpre u (by simp)
    have ih' := ih (fun v hv => hpre v (by simp [hv]))
    rcases hclip : clipRes u with e | o
    · rw [hclip] at hok
      simp [exceptOk] at hok
    · rw [List.cons_append,
        process_tiles_cons_ok present clipRes site u (pre ++ rest) o hp hclip, ih']
      simp [outputsFor]

/-- Membership in the union of a list of geometries. -/
theorem mem_listUnion (l : List GeomS) (p : ℚ × ℚ) :
    p ∈ listUnion l ↔ ∃ g ∈ l, p ∈ g := by
  induction l with
  | nil => simp [listUnion]
  | cons a l ih =>
    show p ∈ a ∪ listUnion l ↔ _
    rw [Set.mem_union, ih]
    simp

/-! ## Claim C4 (corrected): the Resampler has no invalid-resolution check -/

/-- C4 counterexample: for a 5×5 source at pixel size 1 and target size 10,
the computed scale is 10 and the truncated output dimensions are 0 < 1
pixel, yet `resample_to_10m` (lines 136-151) computes them and proceeds —
it does not fail — whereas the spec's §4.4 contract demands an
`InvalidResolutionError` here. -/
theorem C4_counterexample :
    resample_to_10m 5 5 unitAff 10 = .ok (0, 0, ⟨10, 0, 0, 0, -10, 0⟩) ∧
    pyInt ((5 : ℚ) / (10 / srcRes0 unitAff)) < 1 ∧
    resample_spec_model 5 5 unitAff 10 = .error .invalidResolution := by
  refine ⟨?_, ?_, ?_⟩
  · rw [resample_to_10m]
    norm_num [srcRes0, unitAff, pyInt, affMul, affScale]
  · norm_num [pyInt, srcRes0, unitAff]
  · rw [resample_spec_model]
    norm_num [srcRes0, unitAff, pyInt]

/-- C4 (amended): the code performs no validation of the scale or of the
resulting dimensions.  Whenever the computed scale is nonzero — including
negative scales and scales whose truncated output dimensions are below 1
pixel — the dimension/transform computation returns a result; the only
failure in these lines is Python's `ZeroDivisionError` when the scale is
exactly 0, and no invalid-resolution error exists in the code. -/
theorem C4_no_validation (hgt wid : ℕ) (T : Aff) (target : ℚ)
    (hne : target / srcRes0 T ≠ 0) :
    resample_to_10m hgt wid T target =
      .ok (pyInt ((hgt : ℚ) / (target / srcRes0 T)),
        pyInt ((wid : ℚ) / (target / srcRes0 T)),
        affMul T (affScale (target / srcRes0 T) (target / srcRes0 T))) := by
  rw [resample_to_10m]
  simp [hne]

/-- C4 witness: the amended theorem applied at the degenerate concrete input
of the counterexample (scale 10 ≠ 0, output dimensions 0). -/
theorem C4_no_validation_witness :
    (10 : ℚ) / srcRes0 unitAff ≠ 0 ∧
    resample_to_10m 5 5 unitAff 10 = .ok (0, 0, ⟨10, 0, 0, 0, -10, 0⟩) := by
  constructor
  · norm_num [srcRes0, unitAff]
  · have h := C4_no_validation 5 5 unitAff 10 (by norm_num [srcRes0, unitAff])
    rw [h]
    norm_num [srcRes0, unitAff, pyInt, affMul, affScale]

/-! ## Claim C7 (confirmed): resampled dimensions and transform -/

/-- C7: for a square-pixel source raster (positive x pixel size `T.a`,
`T.e = -T.a`) and positive target pixel size, the output height and width of
`resample_to_10m` are the source dimensions divided by the scale factor
`target / T.a`, floored; the output transform is the source transform
composed with `Affine.scale` by that factor on both axes, keeping the origin
corner `(T.c, T.f)`; and at scale factor 1 (`target = T.a`) the dimensions
and transform are unchanged. -/
theorem C7_resample_dims_transform (hgt wid : ℕ) (T : Aff) (target sc : ℚ)
    (hsc : sc = target / T.a) (ha : 0 < T.a) (_hsq : T.e = -T.a)
    (htarget : 0 < target) :
    resample_to_10m hgt wid T target =
      .ok (⌊(hgt : ℚ) / sc⌋, ⌊(wid : ℚ) / sc⌋,
        ⟨T.a * sc, T.b * sc, T.c, T.d * sc, T.e * sc, T.f⟩) ∧
    (affMul T (affScale sc sc)).c = T.c ∧ (affMul T (affScale sc sc)).f = T.f ∧
    (target = T.a →
      resample_to_10m hgt wid T target = .ok ((hgt : ℤ), (wid : ℤ), T)) := by
  have hspos : 0 < sc := hsc ▸ div_pos htarget ha
  have haff : affMul T (affScale sc sc) =
      ⟨T.a * sc, T.b * sc, T.c, T.d * sc, T.e * sc, T.f⟩ := by
    simp [affMul, affScale]
  have hmain : resample_to_10m hgt wid T target =
      .ok (⌊(hgt : ℚ) / sc⌋, ⌊(wid : ℚ) / sc⌋,
        ⟨T.a * sc, T.b * sc, T.c, T.d * sc, T.e * sc, T.f⟩) := by
    rw [resample_to_10m]
    simp only [srcRes0, ← hsc]
    rw [if_neg (ne_of_gt hspos)]
    rw [haff, pyInt, pyInt,
      if_pos (div_nonneg (Nat.cast_nonneg hgt) hspos.le),
      if_pos (div_nonneg (Nat.cast_nonneg wid) hspos.le)]
  refine ⟨hmain, by rw [haff], by rw [haff], fun htt => ?_⟩
  have hsc1 : sc = 1 := by rw [hsc, htt, div_self (ne_of_gt ha)]
  rw [hmain, hsc1]
  norm_num

def tC7 : Aff := ⟨1, 0, 100, 0, -1, 200⟩

/-- C7 witness: the spec's §8 scenario — a 1000×1000 tile at pixel size 1
resampled to target size 10 yields a 100×100 raster whose transform scale
components are 10× the source's, with the origin (100, 200) preserved. -/
theorem C7_resample_dims_transform_witness :
    (0 : ℚ) < tC7.a ∧ tC7.e = -tC7.a ∧ (0 : ℚ) < 10 ∧
    resample_to_10m 1000 1000 tC7 10 =
      .ok (100, 100, ⟨10, 0, 100, 0, -10, 200⟩) := by
  refine ⟨by norm_num [tC7], by norm_num [tC7], by norm_num, ?_⟩
  have h := (C7_resample_dims_transform 1000 1000 tC7 10 10 (by norm_num [tC7])
    (by norm_num [tC7]) (by norm_num [tC7]) (by norm_num)).1
  rw [h]
  norm_num [tC7]

/-! ## Claim C8 (corrected): dissolve unions geometries but keeps the first
feature's attributes -/

/-- C8 counterexample: the attribute data of the input features is not
discarded — changing the first feature's attribute record changes the
loader's result, because `gdf.dissolve()` aggregates non-geometry columns
with the geopandas default `aggfunc="first"`. -/
theorem C8_counterexample :
    load_aoi_for_site [(gA, 7), (gB, 9)] ≠ load_aoi_for_site [(gA, 0), (gB, 9)] := by
  simp [load_aoi_for_site]

/-- C8 (amended): for a layer with one feature the feature is returned
as-is; for a layer with two or more features the loader returns exactly one
geometry, equal to the geometric union of all the layer's features, together
with the FIRST feature's attribute record (attributes are aggregated with
`aggfunc="first"`, not discarded). -/
theorem C8_dissolve_union_first_attr :
    (∀ f : GeomS × ℕ, load_aoi_for_site [f] = .ok f) ∧
    (∀ (f g : GeomS × ℕ) (rest : List (GeomS × ℕ)),
      ∃ U : GeomS, load_aoi_for_site (f :: g :: rest) = .ok (U, f.2) ∧
        ∀ p : ℚ × ℚ, (p ∈ U ↔ ∃ q ∈ f :: g :: rest, p ∈ q.1)) := by
  refine ⟨fun f => rfl, fun f g rest => ⟨_, rfl, fun p => ?_⟩⟩
  rw [mem_listUnion]
  constructor
  · rintro ⟨gg, hgg, hp⟩
    obtain ⟨q, hq, rfl⟩ := List.mem_map.mp hgg
    exact ⟨q, hq, hp⟩
  · rintro ⟨q, hq, hp⟩
    exact ⟨q.1, List.mem_map.mpr ⟨q, hq, rfl⟩, hp⟩

/-! ## Claim C10 (confirmed): only the first geometry row matters -/

/-- C10: `clip_raster_to_aoi` masks with `[aoi_gdf.geometry.values[0]]`
only (line 65).  For two AOI inputs with the same CRS and the same first
geometry row, the clip result — output window and masked pixels alike — is
identical whatever the remaining rows are. -/
theorem C10_only_first_geometry (srcCrs : ℕ) (srcExt : Rect)
    (band : ℚ × ℚ → ℚ) (nodataV : ℚ) (aoiCrs : ℕ) (g : Rect)
    (rest rest' : List Rect) (reproj : ℕ → ℕ → Rect → Rect) :
    clip_raster_to_aoi srcCrs srcExt band nodataV aoiCrs (g :: rest) reproj =
      clip_raster_to_aoi srcCrs srcExt band nodataV aoiCrs (g :: rest') reproj := by
  rw [clip_raster_to_aoi, clip_raster_to_aoi]
  by_cases hc : aoiCrs ≠ srcCrs
  · simp [hc]
  · simp [hc]

/-! ## Claim C2 (corrected): missing tile aborts at its position, earlier
tiles are already processed -/

/-- C2 counterexample: site `s` has tiles `A`, `B`; `A`'s raw file exists
and `B`'s does not.  `process_site` raises the missing-tile error only when
it reaches `B`, after tile `A` has been fully processed: the three output
files of `A` exist, contradicting the claim that no output files are created
for the site. -/
theorem C2_counterexample :
    process_site tdC2 0 [uRect] idReproj "s" ["A", "B"] =
      (outFiles "s" "A", some (PErr.missingTile "B")) ∧
    outFiles "s" "A" ≠ [] := by
  constructor
  · decide
  · simp [outFiles]

/-- C2 (amended): when a site's tile list contains a missing tile, the
orchestrator raises the missing-tile error upon reaching the first such
tile; the tiles before it have been fully processed and their output files
created, and no outputs are created for the missing tile or for any tile
after it.  Only when the missing tile is first in the list are no outputs
created for the site. -/
theorem C2_missing_tile_mid_list (td : String → TileData) (aoiCrs : ℕ)
    (geoms : List Rect) (reproj : ℕ → ℕ → Rect → Rect) (site t : String)
    (pre post : List String)
    (hpre : ∀ u ∈ pre, (td u).present = true ∧
      exceptOk (clip_raster_to_aoi (td u).crs (td u).ext (td u).band
        (td u).nodataV aoiCrs geoms reproj) = true)
    (ht : (td t).present = false) :
    process_site td aoiCrs geoms reproj site (pre ++ t :: post) =
      (outputsFor site pre, some (PErr.missingTile t)) := by
  rw [process_site,
    process_tiles_prefix _ _ site pre (t :: post) (fun u hu => hpre u hu),
    process_tiles_cons_missing _ _ site t post ht]
  simp

/-- C2 witness: the amended theorem at the counterexample input — the
missing tile `B` is second, the processed prefix is `["A"]`. -/
theorem C2_missing_tile_mid_list_witness :
    (tdC2 "B").present = false ∧
    process_site tdC2 0 [uRect] idReproj "s" (["A"] ++ "B" :: []) =
      (outputsFor "s" ["A"], some (PErr.missingTile "B")) :=
  ⟨by decide, C2_missing_tile_mid_list tdC2 0 [uRect] idReproj "s" "B" ["A"] []
    (by intro u hu; rw [List.mem_singleton] at hu; subst hu
        exact ⟨by decide, by decide⟩)
    (by decide)⟩

/-! ## Claim C3 (corrected): no-overlap raises, but nothing catches it -/

/-- C3 counterexample: site `s1` has tiles `A`, `D` where `A`'s extent is
disjoint from the AOI, and a second site `s2` follows.  The no-overlap
failure on `A` is NOT caught: the run ends with the error, tile `D` of the
same site and the whole of site `s2` are never processed and no output file
at all is created — contradicting the claim that sibling tiles and sites
continue. -/
theorem C3_counterexample :
    run_all tdC3 aoiC3 idReproj [("s1", ["A", "D"]), ("s2", ["C"])] =
      ([], some (PErr.noOverlapAt "A")) ∧
    outFiles "s2" "C" ≠ [] := by
  constructor
  · decide
  · simp [outFiles]

/-- C3 (amended): clipping a raster whose extent is disjoint from the
(possibly reprojected) first AOI geometry fails with the no-overlap error —
and since `process_site` and the main loop have no exception handling, that
failure aborts the remaining tiles of the site and all remaining sites: the
run's outputs stop at the tiles processed before the failing tile. -/
theorem C3_no_overlap_aborts (td : String → TileData)
    (aoiF : String → ℕ × List Rect) (reproj : ℕ → ℕ → Rect → Rect)
    (site t : String) (pre post : List String)
    (rest : List (String × List String))
    (hpre : ∀ u ∈ pre, (td u).present = true ∧
      exceptOk (clip_raster_to_aoi (td u).crs (td u).ext (td u).band
        (td u).nodataV (aoiF site).1 (aoiF site).2 reproj) = true)
    (ht : (td t).present = true)
    (hdisj : rectsIntersect (td t).ext
      ((if (aoiF site).1 ≠ (td t).crs
        then (aoiF site).2.map (reproj (aoiF site).1 (td t).crs)
        else (aoiF site).2).headI) = false) :
    clip_raster_to_aoi (td t).crs (td t).ext (td t).band (td t).nodataV
      (aoiF site).1 (aoiF site).2 reproj = .error .noOverlap ∧
    run_all td aoiF reproj ((site, pre ++ t :: post) :: rest) =
      (outputsFor site pre, some (PErr.noOverlapAt t)) := by
  have hclip : clip_raster_to_aoi (td t).crs (td t).ext (td t).band
      (td t).nodataV (aoiF site).1 (aoiF site).2 reproj = .error .noOverlap := by
    simp only [clip_raster_to_aoi]
    rw [hdisj]
    rfl
  refine ⟨hclip, ?_⟩
  have hps : process_site td (aoiF site).1 (aoiF site).2 reproj site
      (pre ++ t :: post) = (outputsFor site pre, some (.noOverlapAt t)) := by
    rw [process_site,
      process_tiles_prefix _ _ site pre (t :: post) (fun u hu => hpre u hu),
      process_tiles_cons_noOverlap _ _ site t post .noOverlap ht hclip]
    simp
  rw [run_all, hps]

/-- C3 witness: the amended theorem at the counterexample input. -/
theorem C3_no_overlap_aborts_witness :
    (tdC3 "A").present = true ∧
    run_all tdC3 aoiC3 idReproj [("s1", ["A", "D"])] =
      ([], some (PErr.noOverlapAt "A")) := by
  refine ⟨by decide, ?_⟩
  have h := (C3_no_overlap_aborts tdC3 aoiC3 idReproj "s1" "A" [] ["D"] []
    (by simp) (by decide) (by decide)).2
  simpa [outputsFor] using h

/-!
## Relief Shader (`compute_hillshade`, lines 84-131)

The elevation band after the nodata replacement of line 88 is a function
`ℕ → ℕ → Option ℝ`: `none` models NaN and every lifted operation propagates
it, as IEEE arithmetic does.  The raster has `m` rows × `n` columns; row
index (axis 0) runs down the raster, column index (axis 1) runs across, as
in the numpy array returned by `src.read(1)`.
-/

open scoped Classical

noncomputable section

/-- Lines 87-88: `dem[dem == src.nodata] = np.nan`.  When the source
declares no nodata value (`src.nodata is None`) the comparison marks no
pixel and every pixel stays valid. -/
def maskNodata (dem : ℕ → ℕ → ℝ) (nd : Option ℝ) (i j : ℕ) : Option ℝ :=
  match nd with
  | none => some (dem i j)
  | some v => if dem i j = v then none else some (dem i j)

/-- `np.gradient` along axis 0 (rows) with the given sample spacing, default
`edge_order=1`: one-sided difference at the first and last row, central
difference (`(f[i+1] - f[i-1]) / (2*spacing)`) inside.  Requires at least 2
rows (numpy raises otherwise); out-of-range indices are never read under
that assumption. -/
def grad0 (g : ℕ → ℕ → Option ℝ) (m : ℕ) (step : ℝ) (i j : ℕ) : Option ℝ :=
  if i = 0 then Option.map₂ (fun p q => (p - q) / step) (g 1 j) (g 0 j)
  else if i = m - 1 then
    Option.map₂ (fun p q => (p - q) / step) (g (m - 1) j) (g (m - 2) j)
  else Option.map₂ (fun p q => (p - q) / (2 * step)) (g (i + 1) j) (g (i - 1) j)

/-- `np.gradient` along axis 1 (columns) with the given sample spacing. -/
def grad1 (g : ℕ → ℕ → Option ℝ) (n : ℕ) (step : ℝ) (i j : ℕ) : Option ℝ :=
  if j = 0 then Option.map₂ (fun p q => (p - q) / step) (g i 1) (g i 0)
  else if j = n - 1 then
    Option.map₂ (fun p q => (p - q) / step) (g i (n - 1)) (g i (n - 2))
  else Option.map₂ (fun p q => (p - q) / (2 * step)) (g i (j + 1)) (g i (j - 1))

/-- Line 95, first component: `dzdx, dzdy = np.gradient(dem, x_res, y_res)`
binds `dzdx` to the first array `np.gradient` returns, which is the gradient
along AXIS 0 (rows, the vertical direction), computed with the first spacing
argument `x_res`. -/
def code_dzdx (g : ℕ → ℕ → Option ℝ) (m : ℕ) (xres : ℝ) : ℕ → ℕ → Option ℝ :=
  grad0 g m xres

/-- Line 95, second component: `dzdy` is the gradient along AXIS 1
(columns, the horizontal direction), computed with the spacing `y_res`. -/
def code_dzdy (g : ℕ → ℕ → Option ℝ) (n : ℕ) (yres : ℝ) : ℕ → ℕ → Option ℝ :=
  grad1 g n yres

/-- Follows the spec's words (§4.3 step 3), for comparison with
`code_dzdx`: dz/dx is "the numerical gradient of elevation along the
horizontal (x) axis" — axis 1, the column direction — "scaled by the x
pixel size". -/
def spec_dzdx (g : ℕ → ℕ → Option ℝ) (n : ℕ) (xres : ℝ) : ℕ → ℕ → Option ℝ :=
  grad1 g n xres

/-- Follows the spec's words (§4.3 step 3): dz/dy is the gradient along the
vertical axis — axis 0, the row direction — scaled by the y pixel size. -/
def spec_dzdy (g : ℕ → ℕ → Option ℝ) (m : ℕ) (yres : ℝ) : ℕ → ℕ → Option ℝ :=
  grad0 g m yres

/-- `np.deg2rad` (lines 97-98). -/
def deg2rad (x : ℝ) : ℝ := x * Real.pi / 180

/-- `np.arctan2 y x` on reals (NaN handling lives in the `Option` layer). -/
def atan2 (y x : ℝ) : ℝ :=
  if 0 < x then Real.arctan (y / x)
  else if x < 0 ∧ 0 ≤ y then Real.arctan (y / x) + Real.pi
  else if x < 0 then Real.arctan (y / x) - Real.pi
  else if 0 < y then Real.pi / 2
  else if y < 0 then -(Real.pi / 2)
  else 0

/-- Lines 100-107: slope `arctan(hypot(dzdx, dzdy))`, aspect
`arctan2(-dzdx, dzdy)`, illumination
`sin(alt)*cos(slope) + cos(alt)*sin(slope)*cos(az - aspect)`, all lifted
over NaN.  `gx`/`gy` are the arrays the code calls `dzdx`/`dzdy`. -/
def hsField (g : ℕ → ℕ → Option ℝ) (m n : ℕ) (xres yres az alt : ℝ)
    (i j : ℕ) : Option ℝ :=
  Option.map₂
    (fun gx gy =>
      let slope := Real.arctan (Real.sqrt (gx ^ 2 + gy ^ 2))
      let aspect := atan2 (-gx) gy
      Real.sin (deg2rad alt) * Real.cos slope +
        Real.cos (deg2rad alt) * Real.sin slope * Real.cos (deg2rad az - aspect))
    (code_dzdx g m xres i j) (code_dzdy g n yres i j)

/-- The finite (non-NaN) values attained by a field over the m×n grid —
the values `np.nanmin`/`np.nanmax` range over (lines 110-111). -/
def finiteVals (m n : ℕ) (g : ℕ → ℕ → Option ℝ) : Finset ℝ :=
  (Finset.range m).biUnion fun i =>
    (Finset.range n).biUnion fun j => (g i j).toFinset

/-- Lines 110-112: `hs_min = np.nanmin(hs)`, `hs_max = np.nanmax(hs)`,
packaged with the `np.isfinite` test — `none` exactly when every pixel is
NaN (nanmin/nanmax of an all-NaN array is NaN, which is not finite). -/
def nanMinMax (m n : ℕ) (g : ℕ → ℕ → Option ℝ) : Option (ℝ × ℝ) :=
  if h : (finiteVals m n g).Nonempty then
    some ((finiteVals m n g).min' h, (finiteVals m n g).max' h)
  else none

/-- Lines 112-115: if the finite min/max exist and differ, normalize each
pixel as `(hs - hs_min) / (hs_max - hs_min)` (NaN pixels stay NaN);
otherwise `hs_norm = np.zeros_like(hs)` — exactly zero everywhere. -/
def hs_norm (m n : ℕ) (g : ℕ → ℕ → Option ℝ) (i j : ℕ) : Option ℝ :=
  match nanMinMax m n g with
  | none => some 0
  | some (lo, hi) =>
    if lo = hi then some 0 else (g i j).map fun v => (v - lo) / (hi - lo)

/-- Lines 117-118: `hs_byte = (hs_norm * 255).astype("uint8")` followed by
`hs_byte[np.isnan(hs)] = 0`.  On the reachable values (normalized into
[0, 1]) the uint8 cast is truncation toward zero, i.e. the floor; every
pixel that was NaN in `hs` is forced to 0 regardless. -/
def hs_byte (m n : ℕ) (g : ℕ → ℕ → Option ℝ) (i j : ℕ) : ℕ :=
  match g i j, hs_norm m n g i j with
  | none, _ => 0
  | some _, none => 0
  | some _, some w => (⌊w * 255⌋).toNat

/-- Lines 120-125: the output profile overrides — 1 band, uint8, nodata 0. -/
structure OutMeta where
  count : ℕ
  nodataOut : ℕ
deriving DecidableEq

def hillshadeMeta : OutMeta := ⟨1, 0⟩

/-- `compute_hillshade` (lines 84-131): pixel sizes from the transform
(`x_res = src.transform.a`, `y_res = -src.transform.e`, lines 91-92),
nodata masking, gradient/illumination field, normalization, byte
conversion, and the output profile. -/
def compute_hillshade (dem : ℕ → ℕ → ℝ) (nd : Option ℝ) (m n : ℕ) (T : Aff)
    (az alt : ℝ) : (ℕ → ℕ → ℕ) × OutMeta :=
  let xres : ℝ := (T.a : ℝ)
  let yres : ℝ := -(T.e : ℝ)
  (hs_byte m n (hsField (maskNodata dem nd) m n xres yres az alt),
    hillshadeMeta)

end

/-! Helper lemmas on the Relief Shader. -/

theorem mem_finiteVals {m n : ℕ} {g : ℕ → ℕ → Option ℝ} {v : ℝ} :
    v ∈ finiteVals m n g ↔ ∃ i, i < m ∧ ∃ j, j < n ∧ g i j = some v := by
  simp [finiteVals, Finset.mem_biUnion, Finset.mem_range, Option.mem_toFinset,
    Option.mem_def]

/-- numpy `arctan2(0, 0) = 0`. -/
theorem atan2_zero_zero : atan2 0 0 = 0 := by
  simp [atan2]

/-- On a flat field (every in-range pixel NaN or the constant `c`), the
axis-0 gradient is NaN or exactly 0. -/
theorem flat_grad0 {g : ℕ → ℕ → Option ℝ} {m n : ℕ} {c : ℝ} (step : ℝ)
    (hm : 2 ≤ m)
    (hflat : ∀ i j, i < m → j < n → g i j = none ∨ g i j = some c)
    {i j : ℕ} (hi : i < m) (hj : j < n) :
    grad0 g m step i j = none ∨ grad0 g m step i j = some 0 := by
  unfold grad0
  split_ifs with h0 hlast
  · rcases hflat 1 j (by omega) hj with ha | ha <;>
      rcases hflat 0 j (by omega) hj with hb | hb <;>
      simp [ha, hb, Option.map₂]
  · rcases hflat (m - 1) j (by omega) hj with ha | ha <;>
      rcases hflat (m - 2) j (by omega) hj with hb | hb <;>
      simp [ha, hb, Option.map₂]
  · rcases hflat (i + 1) j (by omega) hj with ha | ha <;>
      rcases hflat (i - 1) j (by omega) hj with hb | hb <;>
      simp [ha, hb, Option.map₂]

/-- On a flat field, the axis-1 gradient is NaN or exactly 0. -/
theorem flat_grad1 {g : ℕ → ℕ → Option ℝ} {m n : ℕ} {c : ℝ} (step : ℝ)
    (hn : 2 ≤ n)
    (hflat : ∀ i j, i < m → j < n → g i j = none ∨ g i j = some c)
    {i j : ℕ} (hi : i < m) (hj : j < n) :
    grad1 g n step i j = none ∨ grad1 g n step i j = some 0 := by
  unfold grad1
  split_ifs with h0 hlast
  · rcases hflat i 1 hi (by omega) with ha | ha <;>
      rcases hflat i 0 hi (by omega) with hb | hb <;>
      simp [ha, hb, Option.map₂]
  · rcases hflat i (n - 1) hi (by omega) with ha | ha <;>
      rcases hflat i (n - 2) hi (by omega) with hb | hb <;>
      simp [ha, hb, Option.map₂]
  · rcases hflat i (j + 1) hi (by omega) with ha | ha <;>
      rcases hflat i (j - 1) hi (by omega) with hb | hb <;>
      simp [ha, hb, Option.map₂]

/-- On a flat field the illumination at every in-range pixel is NaN or the
constant `sin(deg2rad alt)`: both gradients are 0 where defined, so the
slope is `arctan 0 = 0`, the aspect is `arctan2(0, 0) = 0`, and the formula
collapses to `sin(alt')`. -/
theorem flat_hsField {g : ℕ → ℕ → Option ℝ} {m n : ℕ} {c : ℝ}
    (xres yres az alt : ℝ) (hm : 2 ≤ m) (hn : 2 ≤ n)
    (hflat : ∀ i j, i < m → j < n → g i j = none ∨ g i j = some c)
    {i j : ℕ} (hi : i < m) (hj : j < n) :
    hsField g m n xres yres az alt i j = none ∨
    hsField g m n xres yres az alt i j = some (Real.sin (deg2rad alt)) := by
  have hzero : ((0 : ℝ) ^ 2 + (0 : ℝ) ^ 2) = 0 := by norm_num
  rcases flat_grad0 (n := n) xres hm hflat hi hj with h0 | h0 <;>
    rcases flat_grad1 (m := m) yres hn hflat hi hj with h1 | h1 <;>
    simp [hsField, code_dzdx, code_dzdy, h0, h1, Option.map₂, hzero,
      atan2_zero_zero, Real.sqrt_zero, Real.arctan_zero]

/-- On a flat field every attained finite value is `sin(deg2rad alt)`. -/
theorem flat_finiteVals_subset {m n : ℕ} {F : ℕ → ℕ → Option ℝ} {s : ℝ}
    (hF : ∀ i j, i < m → j < n → F i j = none ∨ F i j = some s) :
    finiteVals m n F ⊆ {s} := by
  intro v hv
  rw [mem_finiteVals] at hv
  obtain ⟨i, hi, j, hj, hij⟩ := hv
  rcases hF i j hi hj with h | h
  · rw [h] at hij
    cases hij
  · rw [h] at hij
    injection hij with hh
    simp [hh]

/-- When the attained finite values form a subsingleton, the normalization
takes the degenerate branch: `hs_norm` is exactly 0 everywhere. -/
theorem hs_norm_const_zero {m n : ℕ} {F : ℕ → ℕ → Option ℝ} {s : ℝ}
    (hsub : finiteVals m n F ⊆ {s}) (i j : ℕ) :
    hs_norm m n F i j = some 0 := by
  by_cases h : (finiteVals m n F).Nonempty
  · have hmin : (finiteVals m n F).min' h = s :=
      Finset.mem_singleton.mp (hsub ((finiteVals m n F).min'_mem h))
    have hmax : (finiteVals m n F).max' h = s :=
      Finset.mem_singleton.mp (hsub ((finiteVals m n F).max'_mem h))
    have hmm : nanMinMax m n F = some (s, s) := by
      rw [nanMinMax, dif_pos h, hmin, hmax]
    simp [hs_norm, hmm]
  · have hmm : nanMinMax m n F = none := by
      rw [nanMinMax, dif_neg h]
    simp [hs_norm, hmm]

/-- Degenerate normalization drives the whole byte raster to 0. -/
theorem hs_byte_zero_of_subset {m n : ℕ} {F : ℕ → ℕ → Option ℝ} {s : ℝ}
    (hsub : finiteVals m n F ⊆ {s}) (i j : ℕ) :
    hs_byte m n F i j = 0 := by
  have hn := hs_norm_const_zero hsub i j
  rcases hF : F i j with _ | v <;> simp [hs_byte, hF, hn]

/-- Flat ⇒ every output pixel of the shader is 0. -/
theorem flat_compute_hillshade_zero (dem : ℕ → ℕ → ℝ) (nd : Option ℝ)
    (m n : ℕ) (T : Aff) (az alt : ℝ) (c : ℝ) (hm : 2 ≤ m) (hn : 2 ≤ n)
    (hflat : ∀ i j, i < m → j < n →
      maskNodata dem nd i j = none ∨ maskNodata dem nd i j = some c) :
    ∀ i j, (compute_hillshade dem nd m n T az alt).1 i j = 0 := by
  intro i j
  have hsub : finiteVals m n
      (hsField (maskNodata dem nd) m n (T.a : ℝ) (-(T.e : ℝ)) az alt) ⊆
      {Real.sin (deg2rad alt)} := by
    apply flat_finiteVals_subset
    intro i' j' hi' hj'
    exact flat_hsField _ _ az alt hm hn hflat hi' hj'
  exact hs_byte_zero_of_subset hsub i j

/-! ## Claim C1 (code_bug): the gradient axes are swapped -/

/-- An elevation field that varies only down the rows:
`[[0, 0], [1, 1]]`. -/
noncomputable def demC1 : ℕ → ℕ → Option ℝ :=
  fun i _ => some (if i = 0 then 0 else 1)

/-- C1: `dzdx, dzdy = np.gradient(dem, x_res, y_res)` (line 95) binds
`dzdx` to the FIRST array numpy returns — the gradient along axis 0 (rows,
the vertical direction), with the x pixel size applied to row spacing.  On
the raster `[[0, 0], [1, 1]]` with unit pixel sizes, the code's `dzdx` at
pixel (0,0) is 1, while dz/dx as the spec states it (gradient along the
horizontal axis scaled by the x pixel size) is 0 there: the slope and
aspect of lines 100-101 are fed axis-swapped gradients.  The code's own
variable names (`dzdx`, `x_res`) and the spec's §4.3 show the intent; the
swap is the numpy axis-order pitfall, so this is a bug in the code. -/
theorem C1_gradient_axis_swap :
    code_dzdx demC1 2 1 0 0 = some 1 ∧
    spec_dzdx demC1 2 1 0 0 = some 0 ∧
    code_dzdx demC1 2 1 0 0 ≠ spec_dzdx demC1 2 1 0 0 := by
  have h1 : code_dzdx demC1 2 1 0 0 = some 1 := by
    norm_num [code_dzdx, grad0, demC1, Option.map₂]
  have h2 : spec_dzdx demC1 2 1 0 0 = some 0 := by
    norm_num [spec_dzdx, grad1, demC1, Option.map₂]
  refine ⟨h1, h2, ?_⟩
  rw [h1, h2]
  simp

/-! ## Claim C5 (corrected): flat surface gives an all-zero raster, whose
zero set is ALL pixels, not the nodata set -/

/-- A perfectly flat elevation surface with no nodata pixels. -/
noncomputable def demFlat5 : ℕ → ℕ → ℝ := fun _ _ => 5

/-- C5 counterexample: on a flat 2×2 raster of elevation 5 with nodata
sentinel 9 (no pixel is nodata), every output pixel is 0 (the degenerate
normalization path), so pixel (0,0) has hillshade value 0 while it is NOT a
nodata pixel of the input — the value-0 set is all pixels and differs from
the (empty) nodata mask, refuting the claimed set equality. -/
theorem C5_counterexample :
    ¬ (∀ i j, i < 2 → j < 2 →
        ((compute_hillshade demFlat5 (some 9) 2 2 unitAff 315 45).1 i j = 0 ↔
          maskNodata demFlat5 (some 9) i j = none)) := by
  intro hcl
  have hflat : ∀ i j, i < 2 → j < 2 →
      maskNodata demFlat5 (some 9) i j = none ∨
      maskNodata demFlat5 (some 9) i j = some 5 := by
    intro i j _ _
    right
    norm_num [maskNodata, demFlat5]
  have h0 : (compute_hillshade demFlat5 (some 9) 2 2 unitAff 315 45).1 0 0 = 0 :=
    flat_compute_hillshade_zero demFlat5 (some 9) 2 2 unitAff 315 45 5
      (by norm_num) (by norm_num) hflat 0 0
  have hno := (hcl 0 0 (by norm_num) (by norm_num)).mp h0
  norm_num [maskNodata, demFlat5] at hno
  exact Option.noConfusion hno

/-- C5 (amended): for every elevation raster (at least 2×2 — numpy's
gradient needs two samples per axis) whose non-nodata pixels all hold the
same constant value, every pixel of the hillshade output is 0.
Consequently the set of value-0 pixels is the set of ALL pixels; it
coincides with the input's nodata mask only in the degenerate case where
every pixel is nodata. -/
theorem C5_flat_hillshade_all_zero (dem : ℕ → ℕ → ℝ) (nd : Option ℝ)
    (m n : ℕ) (T : Aff) (az alt : ℝ) (c : ℝ) (hm : 2 ≤ m) (hn : 2 ≤ n)
    (hflat : ∀ i j, i < m → j < n →
      maskNodata dem nd i j = none ∨ maskNodata dem nd i j = some c) :
    ∀ i j, (compute_hillshade dem nd m n T az alt).1 i j = 0 :=
  flat_compute_hillshade_zero dem nd m n T az alt c hm hn hflat

/-- C5 witness: the amended theorem at a concrete flat 2×2 input. -/
theorem C5_flat_hillshade_all_zero_witness :
    2 ≤ 2 ∧
    (compute_hillshade (fun _ _ => (7 : ℝ)) none 2 2 unitAff 315 45).1 0 0 = 0 :=
  ⟨le_refl 2,
    C5_flat_hillshade_all_zero (fun _ _ => (7 : ℝ)) none 2 2 unitAff 315 45 7
      (le_refl 2) (le_refl 2) (fun _ _ _ _ => Or.inr rfl) 0 0⟩

/-! ## Claim C6 (confirmed): normalization is division-safe -/

/-- C6: the Relief Shader's normalization (lines 110-115).  The finite
min/max cannot be computed exactly when every pixel is missing; in that
case, and when min = max, the normalized output is exactly 0 at every pixel
(`np.zeros_like`) and no division happens; otherwise every non-missing
pixel is mapped to `(value - min) / (max - min)`, which lies in [0, 1]. -/
theorem C6_normalization_safe (m n : ℕ) (g : ℕ → ℕ → Option ℝ) :
    (nanMinMax m n g = none ↔ ∀ i j, i < m → j < n → g i j = none) ∧
    (nanMinMax m n g = none → ∀ i j, hs_norm m n g i j = some 0) ∧
    (∀ lo hi, nanMinMax m n g = some (lo, hi) → lo = hi →
      ∀ i j, hs_norm m n g i j = some 0) ∧
    (∀ lo hi, nanMinMax m n g = some (lo, hi) → lo ≠ hi →
      ∀ i j v, i < m → j < n → g i j = some v →
        hs_norm m n g i j = some ((v - lo) / (hi - lo)) ∧
        0 ≤ (v - lo) / (hi - lo) ∧ (v - lo) / (hi - lo) ≤ 1) := by
  refine ⟨⟨?_, ?_⟩, ?_, ?_, ?_⟩
  · intro h i j hi hj
    by_cases hne : (finiteVals m n g).Nonempty
    · rw [nanMinMax, dif_pos hne] at h
      cases h
    · rcases hgij : g i j with _ | v
      · rfl
      · exact absurd ⟨v, mem_finiteVals.mpr ⟨i, hi, j, hj, hgij⟩⟩ hne
  · intro hall
    rw [nanMinMax, dif_neg ?_]
    rintro ⟨v, hv⟩
    rw [mem_finiteVals] at hv
    obtain ⟨i, hi, j, hj, hij⟩ := hv
    rw [hall i j hi hj] at hij
    cases hij
  · intro h i j
    simp [hs_norm, h]
  · intro lo hi hsome heq i j
    simp [hs_norm, hsome, heq]
  · intro lo hi hsome hne i j v hiv hjv hgv
    have hPos : (finiteVals m n g).Nonempty := by
      by_contra hno
      rw [nanMinMax, dif_neg hno] at hsome
      cases hsome
    have hmm := hsome
    rw [nanMinMax, dif_pos hPos] at hmm
    have hlo : (finiteVals m n g).min' hPos = lo := by
      have := congrArg (fun o => Option.map Prod.fst o) hmm
      simpa using this
    have hhi : (finiteVals m n g).max' hPos = hi := by
      have := congrArg (fun o => Option.map Prod.snd o) hmm
      simpa using this
    have hvmem : v ∈ finiteVals m n g :=
      mem_finiteVals.mpr ⟨i, hiv, j, hjv, hgv⟩
    have h1 : lo ≤ v := hlo ▸ Finset.min'_le _ v hvmem
    have h2 : v ≤ hi := hhi ▸ Finset.le_max' _ v hvmem
    have hlt : lo < hi := lt_of_le_of_ne (le_trans h1 h2) hne
    refine ⟨by simp [hs_norm, hsome, hne, hgv], ?_, ?_⟩
    · exact div_nonneg (sub_nonneg.mpr h1) (sub_nonneg.mpr hlt.le)
    · rw [div_le_one (sub_pos.mpr hlt)]
      exact sub_le_sub_right h2 lo

/-- C6 witness: the all-missing degenerate input — the normalized output is
exactly 0 with no division. -/
theorem C6_normalization_safe_witness :
    hs_norm 1 1 (fun _ _ => (none : Option ℝ)) 0 0 = some 0 :=
  (C6_normalization_safe 1 1 (fun _ _ => none)).2.1
    ((C6_normalization_safe 1 1 (fun _ _ => none)).1.mpr (fun _ _ _ _ => rfl))
    0 0

/-! ## Claim C9 (confirmed): unset input nodata masks nothing, output still
declares nodata 0 -/

/-- C9: when the input declares no nodata value, line 88 marks no pixel as
missing — every pixel's masked value is its elevation and the illumination
field is defined everywhere — yet lines 120-125 still declare 0 as the
output's nodata.  On a flat raster with nodata unset, pixel (0,0) is valid
and its output value is 0: indistinguishable from nodata in the output. -/
theorem C9_unset_nodata :
    (∀ (dem : ℕ → ℕ → ℝ) (i j : ℕ), maskNodata dem none i j = some (dem i j)) ∧
    (∀ (dem : ℕ → ℕ → ℝ) (m n : ℕ) (xr yr az alt : ℝ) (i j : ℕ),
      ∃ v, hsField (maskNodata dem none) m n xr yr az alt i j = some v) ∧
    hillshadeMeta.nodataOut = 0 ∧
    (compute_hillshade (fun _ _ => (0 : ℝ)) none 2 2 unitAff 315 45).2.nodataOut
      = 0 ∧
    (compute_hillshade (fun _ _ => (0 : ℝ)) none 2 2 unitAff 315 45).1 0 0 = 0 := by
  refine ⟨fun _ _ _ => rfl, ?_, rfl, rfl, ?_⟩
  · intro dem m n xr yr az alt i j
    unfold hsField code_dzdx code_dzdy grad0 grad1
    split_ifs <;> exact ⟨_, rfl⟩
  · exact flat_compute_hillshade_zero (fun _ _ => (0 : ℝ)) none 2 2 unitAff
      315 45 0 (le_refl 2) (le_refl 2) (fun _ _ _ _ => Or.inr rfl) 0 0

end EGM704
